import Mathlib

/-!
Shallow embedding of the TaycoBackend HTTP read-API (src/server.js).

The server exposes three GET endpoints over a MongoDB store:
  GET /order-headers            list OrderHeader documents that have labels
  GET /order-details/:orderNr   enriched per-label breakdown of one order
  GET /labels/:barcodeId        raw Label document lookup by barcode

We model JavaScript values relevant to the handlers (for truthiness of the
`||` defaulting used in the response mapping), the two document collections,
the store interface (queries may fail, modelling thrown driver errors caught
by each handler's try/catch), and each route handler as a pure function from
a store interface and its path parameter to an HTTP status code and JSON body.
-/

set_option autoImplicit false

/-- A JavaScript value as it can appear in an optional document field:
absent (`undefined` on access), BSON null, a string, or a number.
Required fields of the data model are given precise Lean types instead. -/
inductive JVal where
  | undef
  | jnull
  | str (s : String)
  | num (n : Int)
deriving DecidableEq

/-- JavaScript truthiness of a `JVal` as used by the `||` operator:
`undefined` and `null` are falsy, a string is truthy iff non-empty,
a number is truthy iff non-zero. -/
def jsTruthy : JVal → Bool
  | .undef => false
  | .jnull => false
  | .str s => s ≠ ""
  | .num n => n ≠ 0

/-- JavaScript template-literal string coercion of a `JVal`
(used in the synthesized BarcodeID fallback). -/
def jvalToString : JVal → String
  | .undef => "undefined"
  | .jnull => "null"
  | .str s => s
  | .num n => toString n

/-- JSON values as serialized into HTTP response bodies. -/
inductive Json where
  | jnull
  | str (s : String)
  | num (n : Int)
  | arr (xs : List Json)
  | obj (fs : List (String × Json))

/-- Serialization of a stored `JVal` field value into JSON.
(`undef` never occurs as a stored field value; absent fields are omitted
from document serialization via `optField`.) -/
def jvalToJson : JVal → Json
  | .undef => .jnull
  | .jnull => .jnull
  | .str s => .str s
  | .num n => .num n

/-- A document field that is omitted from the serialization when absent. -/
def optField (name : String) (v : JVal) : List (String × Json) :=
  match v with
  | .undef => []
  | v => [(name, jvalToJson v)]

/-- `v || null` as used in the response mapping: the value itself when
truthy, JSON null otherwise. -/
def jsOrNull (v : JVal) : Json :=
  if jsTruthy v then jvalToJson v else .jnull

/-- Field lookup in an association list of JSON object fields. -/
def findField : List (String × Json) → String → Option Json
  | [], _ => none
  | (k, v) :: rest, key => if k = key then some v else findField rest key

/-- Field lookup in a JSON value (none when it is not an object). -/
def lookupField (j : Json) (key : String) : Option Json :=
  match j with
  | .obj fs => findField fs key
  | _ => none

/-- A Label document: one per physical label/item within an order.
`OrderNr`, `ItemNumber`, `Quantity`, `ItemDescription` and `PickAreaName`
are the required fields of the data model; `PlantDate`, `SmallText`, `UOM`
and `barcodeId` are observed to be sometimes absent, so they are `JVal`
(with `.undef` for absence). `extra` carries any additional stored fields,
passed through unmodified by the raw-label endpoint. -/
structure Label where
  OrderNr : Int
  ItemNumber : String
  Quantity : Int
  ItemDescription : String
  PickAreaName : String
  PlantDate : JVal
  SmallText : JVal
  UOM : JVal
  barcodeId : JVal
  extra : List (String × Json)

/-- An OrderHeader document: keyed by `OrderNr`, arbitrary additional
header fields passed through unmodified. -/
structure OrderHeader where
  OrderNr : Int
  extra : List (String × Json)

/-- Serialization of a stored Label document, verbatim: every stored field
appears, absent optional fields are omitted, extra fields pass through. -/
def labelToJson (l : Label) : Json :=
  .obj ([("OrderNr", Json.num l.OrderNr),
         ("ItemNumber", Json.str l.ItemNumber),
         ("Quantity", Json.num l.Quantity),
         ("ItemDescription", Json.str l.ItemDescription),
         ("PickAreaName", Json.str l.PickAreaName)]
        ++ optField "PlantDate" l.PlantDate
        ++ optField "SmallText" l.SmallText
        ++ optField "UOM" l.UOM
        ++ optField "barcodeId" l.barcodeId
        ++ l.extra)

/-- Serialization of a stored OrderHeader document, verbatim. -/
def headerToJson (h : OrderHeader) : Json :=
  .obj (("OrderNr", Json.num h.OrderNr) :: h.extra)

/-- The set (as a duplicate-free list) of distinct values of a field,
as returned by the store's distinct query. -/
def distinctVals : List Int → List Int
  | [] => []
  | x :: xs =>
    let r := distinctVals xs
    if x ∈ r then r else x :: r

/-- The store interface seen by the handlers: each query either returns a
result or raises an error (a thrown driver exception with a message),
which the enclosing try/catch of each handler turns into a 500 response. -/
structure StoreIface where
  distinctOrderNrs : Except String (List Int)
  findHeaders : List Int → Except String (List OrderHeader)
  findLabelsByOrderNr : Int → Except String (List Label)
  findOneLabel : String → Except String (Option Label)

/-- The contents of the Tayco database: the Labels and OrderHeaders
collections, in store-native order. -/
structure Store where
  labels : List Label
  orderHeaders : List OrderHeader

/-- The store interface of a concrete store whose queries all succeed:
distinct OrderNr values over Labels; OrderHeaders whose OrderNr is in a
given set; Labels with a given OrderNr; first Label whose barcodeId field
equals a given string. -/
def Store.iface (s : Store) : StoreIface where
  distinctOrderNrs := .ok (distinctVals (s.labels.map (·.OrderNr)))
  findHeaders := fun valid =>
    .ok (s.orderHeaders.filter (fun hd => decide (hd.OrderNr ∈ valid)))
  findLabelsByOrderNr := fun n =>
    .ok (s.labels.filter (fun l => decide (l.OrderNr = n)))
  findOneLabel := fun b =>
    .ok (s.labels.find? (fun l => decide (l.barcodeId = .str b)))

/-- An error response body: `{ "error": "<message>" }`. -/
def errObj (msg : String) : Json := .obj [("error", .str msg)]

/-- `parseInt(s, 10)`: skip leading whitespace, an optional sign, then the
longest prefix of decimal digits; `none` (NaN) when that prefix is empty. -/
def digitsToNat (ds : List Char) : Nat :=
  ds.foldl (fun a c => a * 10 + (c.toNat - 48)) 0

/-- Strip an optional leading sign character, returning the sign and the
remaining characters. -/
def jsSignSplit (cs : List Char) : Int × List Char :=
  match cs with
  | [] => (1, [])
  | c :: r =>
    if c = '-' then (-1, r)
    else if c = '+' then (1, r)
    else (1, c :: r)

/-- JavaScript `parseInt(s, 10)` returning `none` for NaN. -/
def jsParseInt (s : String) : Option Int :=
  let cs := s.data.dropWhile Char.isWhitespace
  let sr := jsSignSplit cs
  let ds := sr.2.takeWhile Char.isDigit
  if ds.isEmpty then none
  else some (sr.1 * (digitsToNat ds : Int))

/-- GET /order-headers: distinct OrderNr values over Labels; 404 when that
set is empty; otherwise OrderHeaders with OrderNr in the set; 404 (with a
different message) when none match; otherwise 200 with the array of
headers. Any store error is caught and answered with a fixed 500 body. -/
def orderHeadersHandler (st : StoreIface) : Nat × Json :=
  match st.distinctOrderNrs with
  | .error _ => (500, errObj "Error fetching valid orders.")
  | .ok valid =>
    if valid.isEmpty then (404, errObj "No valid orders found.")
    else
      match st.findHeaders valid with
      | .error _ => (500, errObj "Error fetching valid orders.")
      | .ok orders =>
        if orders.isEmpty then (404, errObj "No matching orders found.")
        else (200, .arr (orders.map headerToJson))

/-- One entry of the Details array: required label fields passed through,
`SmallText`/`UOM` defaulted to null when falsy, and `BarcodeID` the label's
own barcodeId when truthy, otherwise the synthesized
`"<OrderNr>-<ItemNumber>"` string. -/
def detailEntry (orderNr : Int) (l : Label) : Json :=
  .obj [("ItemNumber", Json.str l.ItemNumber),
        ("Quantity", Json.num l.Quantity),
        ("ItemDescription", Json.str l.ItemDescription),
        ("PickAreaName", Json.str l.PickAreaName),
        ("SmallText", jsOrNull l.SmallText),
        ("UOM", jsOrNull l.UOM),
        ("BarcodeID",
          if jsTruthy l.barcodeId then jvalToJson l.barcodeId
          else .str (toString orderNr ++ "-" ++ l.ItemNumber))]

/-- `orderDetails[0]?.PlantDate || null`: the first matching label's
PlantDate when truthy, JSON null otherwise (and null for an empty list). -/
def firstPlantDate : List Label → Json
  | [] => .jnull
  | l :: _ => jsOrNull l.PlantDate

/-- GET /order-details/:orderNr: 400 when the parameter does not parse as
an integer; otherwise Labels with that OrderNr; 404 naming the order
number when none; otherwise 200 with the enriched detail object. Any
store error is caught and answered with a fixed 500 body. -/
def orderDetailsHandler (st : StoreIface) (param : String) : Nat × Json :=
  match jsParseInt param with
  | none => (400, errObj "OrderNr must be a valid number.")
  | some orderNr =>
    match st.findLabelsByOrderNr orderNr with
    | .error _ => (500, errObj "Error fetching order details.")
    | .ok orderDetails =>
      if orderDetails.isEmpty then
        (404, errObj ("No valid labels found for OrderNr: " ++ toString orderNr))
      else
        (200, .obj [("OrderNr", Json.num orderNr),
                    ("PlantDate", firstPlantDate orderDetails),
                    ("Details", .arr (orderDetails.map (detailEntry orderNr)))])

/-- GET /labels/:barcodeId: 400 when the parameter is falsy (empty string),
before any store access; otherwise findOne on the barcodeId field; 404
naming the identifier when no match; otherwise 200 with the stored
document verbatim. Any store error is caught and answered with a fixed
500 body. -/
def labelsHandler (st : StoreIface) (barcodeId : String) : Nat × Json :=
  if barcodeId = "" then (400, errObj "Barcode ID is required.")
  else
    match st.findOneLabel barcodeId with
    | .error _ => (500, errObj "Error fetching label.")
    | .ok none => (404, errObj ("Label not found for ID: " ++ barcodeId))
    | .ok (some l) => (200, labelToJson l)

/-- GET /order-headers evaluated on a concrete store. -/
def orderHeadersOn (s : Store) : Nat × Json :=
  orderHeadersHandler s.iface

/-- GET /order-details/:orderNr evaluated on a concrete store. -/
def orderDetailsOn (s : Store) (param : String) : Nat × Json :=
  orderDetailsHandler s.iface param

/-- GET /labels/:barcodeId evaluated on a concrete store. -/
def labelsOn (s : Store) (barcodeId : String) : Nat × Json :=
  labelsHandler s.iface barcodeId

/-- A sample Label used to instantiate theorems at concrete inputs. -/
def sampleLabel : Label :=
  { OrderNr := 1, ItemNumber := "A", Quantity := 2, ItemDescription := "desc",
    PickAreaName := "area", PlantDate := .str "2024-01-01", SmallText := .undef,
    UOM := .undef, barcodeId := .str "B1", extra := [] }

/-- A sample OrderHeader matching `sampleLabel`. -/
def sampleHeader : OrderHeader := { OrderNr := 1, extra := [] }

/-- A sample store holding `sampleLabel` and `sampleHeader`. -/
def sampleStore : Store :=
  { labels := [sampleLabel], orderHeaders := [sampleHeader] }

/-- A store with empty collections. -/
def emptyStore : Store := { labels := [], orderHeaders := [] }

/-- A label whose barcodeId field is present but holds the empty string. -/
def emptyBarcodeLabel : Label :=
  { OrderNr := 7, ItemNumber := "X1", Quantity := 1, ItemDescription := "d",
    PickAreaName := "a", PlantDate := .undef, SmallText := .undef,
    UOM := .undef, barcodeId := .str "", extra := [] }

/-- A store holding only `emptyBarcodeLabel`. -/
def emptyBarcodeStore : Store :=
  { labels := [emptyBarcodeLabel], orderHeaders := [] }

/-- A label with no barcodeId field at all (the spec's example
`{OrderNr: 7, ItemNumber: "X1", barcodeId: undefined}`). -/
def noBarcodeLabel : Label :=
  { OrderNr := 7, ItemNumber := "X1", Quantity := 1, ItemDescription := "d",
    PickAreaName := "a", PlantDate := .undef, SmallText := .undef,
    UOM := .undef, barcodeId := .undef, extra := [] }

/-- A store holding only `noBarcodeLabel`. -/
def noBarcodeStore : Store :=
  { labels := [noBarcodeLabel], orderHeaders := [] }

/-- A label whose optional fields are all present but falsy. -/
def falsyLabel : Label :=
  { OrderNr := 7, ItemNumber := "X1", Quantity := 1, ItemDescription := "d",
    PickAreaName := "a", PlantDate := .str "", SmallText := .str "",
    UOM := .num 0, barcodeId := .str "", extra := [] }

/-- A store interface all of whose queries raise the given error. -/
def failingIface (e : String) : StoreIface :=
  { distinctOrderNrs := .error e,
    findHeaders := fun _ => .error e,
    findLabelsByOrderNr := fun _ => .error e,
    findOneLabel := fun _ => .error e }

/-- A store interface whose distinct query succeeds non-trivially but whose
find queries raise the given error. -/
def failingSecondIface (e : String) : StoreIface :=
  { distinctOrderNrs := .ok [1],
    findHeaders := fun _ => .error e,
    findLabelsByOrderNr := fun _ => .error e,
    findOneLabel := fun _ => .error e }

/- ### Helper lemmas -/

theorem mem_distinctVals (l : List Int) : ∀ a, a ∈ distinctVals l ↔ a ∈ l := by
  induction l with
  | nil => intro a; simp [distinctVals]
  | cons x xs ih =>
    intro a
    by_cases hx : x ∈ distinctVals xs
    · have hxs : x ∈ xs := (ih x).mp hx
      simp only [distinctVals, if_pos hx, List.mem_cons, ih a]
      constructor
      · exact Or.inr
      · rintro (rfl | h)
        · exact hxs
        · exact h
    · simp only [distinctVals, if_neg hx, List.mem_cons, ih a]

theorem distinctVals_eq_nil_iff (l : List Int) : distinctVals l = [] ↔ l = [] := by
  cases l with
  | nil => simp [distinctVals]
  | cons x xs =>
    simp only [distinctVals]
    by_cases hx : x ∈ distinctVals xs
    · simp only [if_pos hx]
      constructor
      · intro h
        exact absurd (h ▸ hx) (List.not_mem_nil x)
      · intro h
        exact absurd h (List.cons_ne_nil x xs)
    · simp [if_neg hx]

/-- The order-listing handler on a concrete store, reduced to its branches. -/
theorem orderHeadersOn_eq (s : Store) :
    orderHeadersOn s =
      if (distinctVals (s.labels.map (·.OrderNr))).isEmpty then
        (404, errObj "No valid orders found.")
      else if (s.orderHeaders.filter fun hd =>
          decide (hd.OrderNr ∈ distinctVals (s.labels.map (·.OrderNr)))).isEmpty then
        (404, errObj "No matching orders found.")
      else (200, .arr ((s.orderHeaders.filter fun hd =>
          decide (hd.OrderNr ∈ distinctVals (s.labels.map (·.OrderNr)))).map headerToJson)) :=
  rfl

/-- The order-detail handler on a concrete store when the parameter fails to
parse as an integer. -/
theorem orderDetailsOn_of_parse_none (s : Store) (p : String)
    (h : jsParseInt p = none) :
    orderDetailsOn s p = (400, errObj "OrderNr must be a valid number.") := by
  simp [orderDetailsOn, orderDetailsHandler, h]

/-- The order-detail handler on a concrete store when the parameter parses
as an integer, reduced to its branches. -/
theorem orderDetailsOn_of_parse_some (s : Store) (p : String) (n : Int)
    (h : jsParseInt p = some n) :
    orderDetailsOn s p =
      if (s.labels.filter fun l => decide (l.OrderNr = n)).isEmpty then
        (404, errObj ("No valid labels found for OrderNr: " ++ toString n))
      else
        (200, .obj [("OrderNr", Json.num n),
          ("PlantDate", firstPlantDate (s.labels.filter fun l => decide (l.OrderNr = n))),
          ("Details", .arr ((s.labels.filter fun l =>
              decide (l.OrderNr = n)).map (detailEntry n)))]) := by
  simp only [orderDetailsOn, orderDetailsHandler, h, Store.iface]

/- ### Claim theorems -/

/-- C1: the order listing endpoint returns exactly the OrderHeader documents
whose OrderNr appears in at least one Label: every 200 response body is the
array of exactly those headers of the store that some label references, and
a header referenced by some label is always in a 200 response. -/
theorem c1_listing_exact (s u : Store) (body : Json)
    (h : orderHeadersOn s = (200, body))
    (hd0 : OrderHeader) (lb0 : Label)
    (hmem : hd0 ∈ u.orderHeaders) (hlab : lb0 ∈ u.labels)
    (href : lb0.OrderNr = hd0.OrderNr) :
    (∃ hs : List OrderHeader,
        body = .arr (hs.map headerToJson) ∧
        ∀ hd : OrderHeader, hd ∈ hs ↔
          hd ∈ s.orderHeaders ∧ ∃ lb ∈ s.labels, lb.OrderNr = hd.OrderNr) ∧
    (∃ hs : List OrderHeader,
        orderHeadersOn u = (200, .arr (hs.map headerToJson)) ∧ hd0 ∈ hs) := by
  constructor
  · rw [orderHeadersOn_eq] at h
    by_cases he : (distinctVals (s.labels.map (·.OrderNr))).isEmpty
    · rw [if_pos he] at h
      simp [Prod.ext_iff] at h
    · rw [if_neg he] at h
      by_cases ho : (s.orderHeaders.filter fun hd =>
          decide (hd.OrderNr ∈ distinctVals (s.labels.map (·.OrderNr)))).isEmpty
      · rw [if_pos ho] at h
        simp [Prod.ext_iff] at h
      · rw [if_neg ho] at h
        refine ⟨_, (congrArg Prod.snd h).symm, fun hd => ?_⟩
        constructor
        · intro hin
          obtain ⟨h1, h2⟩ := List.mem_filter.mp hin
          refine ⟨h1, ?_⟩
          have hordn : hd.OrderNr ∈ distinctVals (s.labels.map (·.OrderNr)) :=
            of_decide_eq_true h2
          obtain ⟨lb, hlb, heq⟩ :=
            List.mem_map.mp ((mem_distinctVals _ _).mp hordn)
          exact ⟨lb, hlb, heq⟩
        · rintro ⟨hh, lb, hlb, heq⟩
          refine List.mem_filter.mpr ⟨hh, decide_eq_true ?_⟩
          exact (mem_distinctVals _ _).mpr (List.mem_map.mpr ⟨lb, hlb, heq⟩)
  · rw [orderHeadersOn_eq]
    have hvd : hd0.OrderNr ∈ distinctVals (u.labels.map (·.OrderNr)) :=
      (mem_distinctVals _ _).mpr (List.mem_map.mpr ⟨lb0, hlab, href⟩)
    have he : ¬ (distinctVals (u.labels.map (·.OrderNr))).isEmpty = true := by
      intro hcon
      rw [List.isEmpty_iff] at hcon
      rw [hcon] at hvd
      exact List.not_mem_nil _ hvd
    have hfo : hd0 ∈ u.orderHeaders.filter (fun hd =>
        decide (hd.OrderNr ∈ distinctVals (u.labels.map (·.OrderNr)))) :=
      List.mem_filter.mpr ⟨hmem, decide_eq_true hvd⟩
    have ho : ¬ (u.orderHeaders.filter fun hd =>
        decide (hd.OrderNr ∈ distinctVals (u.labels.map (·.OrderNr)))).isEmpty = true := by
      intro hcon
      rw [List.isEmpty_iff] at hcon
      rw [hcon] at hfo
      exact List.not_mem_nil _ hfo
    rw [if_neg he, if_neg ho]
    exact ⟨_, rfl, hfo⟩

/-- C1 witness: the theorem instantiated at a one-label, one-header store. -/
theorem c1_listing_exact_witness :
    (∃ hs : List OrderHeader,
        Json.arr [headerToJson sampleHeader] = .arr (hs.map headerToJson) ∧
        ∀ hd : OrderHeader, hd ∈ hs ↔
          hd ∈ sampleStore.orderHeaders ∧
          ∃ lb ∈ sampleStore.labels, lb.OrderNr = hd.OrderNr) ∧
    (∃ hs : List OrderHeader,
        orderHeadersOn sampleStore = (200, .arr (hs.map headerToJson)) ∧
        sampleHeader ∈ hs) :=
  c1_listing_exact sampleStore sampleStore (Json.arr [headerToJson sampleHeader])
    rfl sampleHeader sampleLabel
    (by simp [sampleStore]) (by simp [sampleStore]) rfl

/-- C2: for a successfully parsed integer order number, the detail handler
responds 404 naming that number when no Label ms, and otherwise 200
with an object echoing the parsed integer as OrderNr, taking PlantDate from
the first matching label (null when absent), and one Details entry per
matching label carrying ItemNumber, Quantity, ItemDescription, PickAreaName,
SmallText (null when absent), UOM (null when absent) and BarcodeID. -/
theorem c2_detail_endpoint (s t : Store) (p q : String) (n m : Int)
    (hp : jsParseInt p = some n) (hq : jsParseInt q = some m)
    (hnone : t.labels.filter (fun l => decide (l.OrderNr = m)) = [])
    (first : Label) (rest : List Label)
    (hsome : s.labels.filter (fun l => decide (l.OrderNr = n)) = first :: rest) :
    orderDetailsOn t q =
      (404, errObj ("No valid labels found for OrderNr: " ++ toString m)) ∧
    orderDetailsOn s p =
      (200, .obj [("OrderNr", Json.num n),
        ("PlantDate", jsOrNull first.PlantDate),
        ("Details", .arr ((first :: rest).map (detailEntry n)))]) ∧
    ∀ l : Label, detailEntry n l =
      .obj [("ItemNumber", Json.str l.ItemNumber),
            ("Quantity", Json.num l.Quantity),
            ("ItemDescription", Json.str l.ItemDescription),
            ("PickAreaName", Json.str l.PickAreaName),
            ("SmallText", jsOrNull l.SmallText),
            ("UOM", jsOrNull l.UOM),
            ("BarcodeID", if jsTruthy l.barcodeId then jvalToJson l.barcodeId
              else .str (toString n ++ "-" ++ l.ItemNumber))] := by
  refine ⟨?_, ?_, fun l => rfl⟩
  · rw [orderDetailsOn_of_parse_some t q m hq, hnone]
    simp
  · rw [orderDetailsOn_of_parse_some s p n hp, hsome]
    simp [firstPlantDate]

/-- C2 witness: the theorem instantiated at `sampleStore` for order 1 and,
for the 404 branch, at the empty store for order 42. -/
theorem c2_detail_endpoint_witness :
    orderDetailsOn emptyStore "42" =
      (404, errObj ("No valid labels found for OrderNr: " ++ toString (42 : Int))) ∧
    orderDetailsOn sampleStore "1" =
      (200, .obj [("OrderNr", Json.num 1),
        ("PlantDate", jsOrNull sampleLabel.PlantDate),
        ("Details", .arr ((sampleLabel :: []).map (detailEntry 1)))]) ∧
    ∀ l : Label, detailEntry 1 l =
      .obj [("ItemNumber", Json.str l.ItemNumber),
            ("Quantity", Json.num l.Quantity),
            ("ItemDescription", Json.str l.ItemDescription),
            ("PickAreaName", Json.str l.PickAreaName),
            ("SmallText", jsOrNull l.SmallText),
            ("UOM", jsOrNull l.UOM),
            ("BarcodeID", if jsTruthy l.barcodeId then jvalToJson l.barcodeId
              else .str (toString (1 : Int) ++ "-" ++ l.ItemNumber))] :=
  c2_detail_endpoint sampleStore emptyStore "1" "42" 1 42 rfl rfl rfl
    sampleLabel [] rfl

/-- C3 counterexample: a label whose barcodeId field is present (not
undefined) but holds the empty string; the claim says the response entry's
BarcodeID then equals the label's own barcode field, but the code returns
the synthesized "7-X1" instead, which differs from that field's value. -/
theorem c3_barcode_counterexample :
    emptyBarcodeLabel.barcodeId ≠ JVal.undef ∧
    orderDetailsOn emptyBarcodeStore "7" =
      (200, .obj [("OrderNr", Json.num 7),
        ("PlantDate", Json.jnull),
        ("Details", .arr [detailEntry 7 emptyBarcodeLabel])]) ∧
    lookupField (detailEntry 7 emptyBarcodeLabel) "BarcodeID" =
      some (.str "7-X1") ∧
    lookupField (detailEntry 7 emptyBarcodeLabel) "BarcodeID" ≠
      some (jvalToJson emptyBarcodeLabel.barcodeId) := by
  refine ⟨by decide, rfl, rfl, ?_⟩
  intro h
  rw [show lookupField (detailEntry 7 emptyBarcodeLabel) "BarcodeID" =
      some (.str "7-X1") from rfl] at h
  rw [show jvalToJson emptyBarcodeLabel.barcodeId = .str "" from rfl] at h
  injection h with h1
  injection h1 with h2
  exact absurd h2 (by decide)

/-- C3 amended: for every label entry in a 200 order-detail response,
BarcodeID equals the label's own barcode field when that field is present
and truthy (in particular non-empty), and otherwise equals the synthesized
"<OrderNr>-<ItemNumber>" string. -/
theorem c3_barcode_rule (s : Store) (p : String) (n : Int)
    (hp : jsParseInt p = some n) (body : Json)
    (h200 : orderDetailsOn s p = (200, body)) :
    ∃ ms : List Label,
      lookupField body "Details" = some (.arr (ms.map (detailEntry n))) ∧
      ∀ l ∈ ms,
        lookupField (detailEntry n l) "BarcodeID" =
          some (if jsTruthy l.barcodeId then jvalToJson l.barcodeId
                else .str (toString n ++ "-" ++ l.ItemNumber)) := by
  rw [orderDetailsOn_of_parse_some s p n hp] at h200
  by_cases he : (s.labels.filter fun l => decide (l.OrderNr = n)).isEmpty
  · rw [if_pos he] at h200
    simp [Prod.ext_iff] at h200
  · rw [if_neg he] at h200
    have hb : body = Json.obj [("OrderNr", Json.num n),
        ("PlantDate", firstPlantDate (s.labels.filter fun l => decide (l.OrderNr = n))),
        ("Details", Json.arr ((s.labels.filter
            fun l => decide (l.OrderNr = n)).map (detailEntry n)))] :=
      (congrArg Prod.snd h200).symm
    refine ⟨s.labels.filter fun l => decide (l.OrderNr = n), ?_, fun l _ => ?_⟩
    · rw [hb]
      simp [lookupField, findField]
    · simp [detailEntry, lookupField, findField]

/-- C3 amended witness: at the spec's example store (one label with
OrderNr 7, ItemNumber "X1" and no barcodeId) and the request "7". -/
theorem c3_barcode_rule_witness :
    ∃ ms : List Label,
      lookupField (Json.obj [("OrderNr", Json.num 7),
          ("PlantDate", Json.jnull),
          ("Details", Json.arr [detailEntry 7 noBarcodeLabel])]) "Details" =
        some (.arr (ms.map (detailEntry 7))) ∧
      ∀ l ∈ ms,
        lookupField (detailEntry 7 l) "BarcodeID" =
          some (if jsTruthy l.barcodeId then jvalToJson l.barcodeId
                else .str (toString (7 : Int) ++ "-" ++ l.ItemNumber)) :=
  c3_barcode_rule noBarcodeStore "7" 7 rfl _ rfl

/-- C4: when the order-number path parameter does not parse as an integer,
the detail handler responds 400 with a message identifying the constraint,
for every store interface whatsoever (hence before and independent of any
store access). -/
theorem c4_non_integer_400 (st : StoreIface) (p : String)
    (hp : jsParseInt p = none) :
    orderDetailsHandler st p = (400, errObj "OrderNr must be a valid number.") := by
  simp [orderDetailsHandler, hp]

/-- C4 witness: the parameter "abc" yields 400 on a sample store. -/
theorem c4_non_integer_400_witness :
    orderDetailsHandler sampleStore.iface "abc" =
      (400, errObj "OrderNr must be a valid number.") :=
  c4_non_integer_400 sampleStore.iface "abc" rfl

/-- C5: on the order listing endpoint, an empty distinct-OrderNr set yields
404 "No valid orders found." rather than an empty 200 array, and a
non-empty set with no matching OrderHeaders yields 404 with a different
message, "No matching orders found.". -/
theorem c5_listing_404_branches (s t : Store)
    (h1 : distinctVals (s.labels.map (·.OrderNr)) = [])
    (h2 : distinctVals (t.labels.map (·.OrderNr)) ≠ [])
    (h3 : t.orderHeaders.filter (fun hd =>
        decide (hd.OrderNr ∈ distinctVals (t.labels.map (·.OrderNr)))) = []) :
    orderHeadersOn s = (404, errObj "No valid orders found.") ∧
    orderHeadersOn t = (404, errObj "No matching orders found.") ∧
    "No valid orders found." ≠ "No matching orders found." := by
  refine ⟨?_, ?_, by decide⟩
  · rw [orderHeadersOn_eq, h1]
    simp
  · have he : ¬ (distinctVals (t.labels.map (·.OrderNr))).isEmpty = true := by
      rw [List.isEmpty_iff]
      exact h2
    rw [orderHeadersOn_eq, h3, if_neg he]
    simp

/-- C5 witness: the empty store hits the first 404, and a store with one
label but no headers hits the second. -/
theorem c5_listing_404_branches_witness :
    orderHeadersOn emptyStore = (404, errObj "No valid orders found.") ∧
    orderHeadersOn noBarcodeStore = (404, errObj "No matching orders found.") ∧
    "No valid orders found." ≠ "No matching orders found." :=
  c5_listing_404_branches emptyStore noBarcodeStore rfl (by decide) rfl

/-- C6: the label lookup endpoint answers 400 to an empty barcode parameter
for every store interface whatsoever (hence without reaching the store),
404 naming the identifier when no Label's barcodeId equals the non-empty
parameter, and 200 with the stored document serialized verbatim when one
does. -/
theorem c6_label_lookup (st : StoreIface) (s t : Store) (b c : String)
    (l : Label) (hb : b ≠ "") (hc : c ≠ "")
    (hnone : s.labels.find? (fun x => decide (x.barcodeId = .str b)) = none)
    (hsome : t.labels.find? (fun x => decide (x.barcodeId = .str c)) = some l) :
    labelsHandler st "" = (400, errObj "Barcode ID is required.") ∧
    labelsOn s b = (404, errObj ("Label not found for ID: " ++ b)) ∧
    labelsOn t c = (200, labelToJson l) := by
  refine ⟨by simp [labelsHandler], ?_, ?_⟩
  · simp [labelsOn, labelsHandler, Store.iface, hb, hnone]
  · simp [labelsOn, labelsHandler, Store.iface, hc, hsome]

/-- C6 witness: the empty parameter on a sample interface, a miss for
"ZZZ" on the empty store, and a hit for "B1" on the sample store. -/
theorem c6_label_lookup_witness :
    labelsHandler sampleStore.iface "" = (400, errObj "Barcode ID is required.") ∧
    labelsOn emptyStore "ZZZ" = (404, errObj ("Label not found for ID: " ++ "ZZZ")) ∧
    labelsOn sampleStore "B1" = (200, labelToJson sampleLabel) :=
  c6_label_lookup sampleStore.iface emptyStore sampleStore "ZZZ" "B1"
    sampleLabel (by decide) (by decide) rfl rfl

/-- C7: whenever a store query raises an error, in any of the three
handlers and at either query position of the listing handler, the response
is 500 with the fixed `{ "error": <generic message> }` body of that
endpoint, independent of the raised error's content. -/
theorem c7_store_errors_uniform_500 (e1 e2 e3 e4 : String)
    (st1 st2 st3 st4 : StoreIface) (v : List Int) (p : String) (n : Int)
    (b : String)
    (h1 : st1.distinctOrderNrs = .error e1)
    (h2a : st2.distinctOrderNrs = .ok v) (h2b : v ≠ [])
    (h2c : st2.findHeaders v = .error e2)
    (hp : jsParseInt p = some n)
    (h3 : st3.findLabelsByOrderNr n = .error e3)
    (hb : b ≠ "") (h4 : st4.findOneLabel b = .error e4) :
    orderHeadersHandler st1 = (500, errObj "Error fetching valid orders.") ∧
    orderHeadersHandler st2 = (500, errObj "Error fetching valid orders.") ∧
    orderDetailsHandler st3 p = (500, errObj "Error fetching order details.") ∧
    labelsHandler st4 b = (500, errObj "Error fetching label.") := by
  refine ⟨?_, ?_, ?_, ?_⟩
  · simp [orderHeadersHandler, h1]
  · simp [orderHeadersHandler, h2a, h2c, List.isEmpty_iff, h2b]
  · simp [orderDetailsHandler, hp, h3]
  · simp [labelsHandler, hb, h4]

/-- C7 witness: interfaces whose queries raise "boom" at each position. -/
theorem c7_store_errors_uniform_500_witness :
    orderHeadersHandler (failingIface "boom") =
      (500, errObj "Error fetching valid orders.") ∧
    orderHeadersHandler (failingSecondIface "boom") =
      (500, errObj "Error fetching valid orders.") ∧
    orderDetailsHandler (failingIface "boom") "5" =
      (500, errObj "Error fetching order details.") ∧
    labelsHandler (failingIface "boom") "B1" =
      (500, errObj "Error fetching label.") :=
  c7_store_errors_uniform_500 "boom" "boom" "boom" "boom"
    (failingIface "boom") (failingSecondIface "boom") (failingIface "boom")
    (failingIface "boom") [1] "5" 5 "B1"
    rfl rfl (by decide) rfl rfl rfl (by decide) rfl

/-- C8: in the order detail response mapping, a present-but-falsy optional
field is treated as absent: falsy SmallText and UOM are reported as null,
a falsy PlantDate of the first matching label is reported as null, and an
empty-string barcodeId triggers the synthesized BarcodeID fallback. -/
theorem c8_falsy_optionals_null (n : Int) (l : Label) (rest : List Label)
    (hs : jsTruthy l.SmallText = false)
    (hu : jsTruthy l.UOM = false)
    (hpd : jsTruthy l.PlantDate = false)
    (hb : l.barcodeId = .str "") :
    lookupField (detailEntry n l) "SmallText" = some Json.jnull ∧
    lookupField (detailEntry n l) "UOM" = some Json.jnull ∧
    firstPlantDate (l :: rest) = Json.jnull ∧
    lookupField (detailEntry n l) "BarcodeID" =
      some (.str (toString n ++ "-" ++ l.ItemNumber)) := by
  refine ⟨?_, ?_, ?_, ?_⟩
  · simp [detailEntry, lookupField, findField, jsOrNull, hs]
  · simp [detailEntry, lookupField, findField, jsOrNull, hu]
  · simp [firstPlantDate, jsOrNull, hpd]
  · simp [detailEntry, lookupField, findField, hb, jsTruthy]

/-- C8 witness: a label whose SmallText is the empty string, UOM is 0,
PlantDate is the empty string and barcodeId is the empty string. -/
theorem c8_falsy_optionals_null_witness :
    lookupField (detailEntry 7 falsyLabel) "SmallText" = some Json.jnull ∧
    lookupField (detailEntry 7 falsyLabel) "UOM" = some Json.jnull ∧
    firstPlantDate (falsyLabel :: []) = Json.jnull ∧
    lookupField (detailEntry 7 falsyLabel) "BarcodeID" =
      some (.str (toString (7 : Int) ++ "-" ++ falsyLabel.ItemNumber)) :=
  c8_falsy_optionals_null 7 falsyLabel [] rfl rfl rfl rfl

/- ### parseInt helper lemmas for C10 -/

theorem data_mk (l : List Char) : (String.mk l).data = l := rfl

theorem digit_not_whitespace (c : Char) (h : c.isDigit = true) :
    c.isWhitespace = false := by
  cases hw : c.isWhitespace
  · rfl
  · exfalso
    have hx : c = ' ' ∨ c = '\t' ∨ c = '\r' ∨ c = '\n' := by
      simpa [Char.isWhitespace, or_assoc] using hw
    rcases hx with h1 | h1 | h1 | h1 <;>
      (rw [h1] at h; exact absurd h (by decide))

theorem takeWhile_append_digits : ∀ ds rest : List Char,
    (∀ c ∈ ds, c.isDigit = true) →
    (∀ c, rest.head? = some c → c.isDigit = false) →
    (ds ++ rest).takeWhile Char.isDigit = ds := by
  intro ds
  induction ds with
  | nil =>
    intro rest _ hrest
    cases rest with
    | nil => rfl
    | cons c r => simp [List.takeWhile_cons, hrest c rfl]
  | cons d ds ih =>
    intro rest hdig hrest
    have hd : d.isDigit = true := hdig d (by simp)
    simp only [List.cons_append, List.takeWhile_cons, hd, if_true]
    rw [ih rest (fun c hc => hdig c (by simp [hc])) hrest]

theorem jsParseInt_append_digits (d0 : Char) (ds rest : List Char)
    (hdig : ∀ c ∈ d0 :: ds, c.isDigit = true)
    (hrest : ∀ c, rest.head? = some c → c.isDigit = false) :
    jsParseInt ⟨(d0 :: ds) ++ rest⟩ = some (digitsToNat (d0 :: ds) : Int) := by
  have hd0 : d0.isDigit = true := hdig d0 (by simp)
  have hw : ¬ d0.isWhitespace = true := by
    rw [digit_not_whitespace d0 hd0]
    exact Bool.false_ne_true
  have hdash : ¬ d0 = '-' := by
    intro h
    rw [h] at hd0
    exact absurd hd0 (by decide)
  have hplus : ¬ d0 = '+' := by
    intro h
    rw [h] at hd0
    exact absurd hd0 (by decide)
  have htake : ((d0 :: ds) ++ rest).takeWhile Char.isDigit = d0 :: ds :=
    takeWhile_append_digits (d0 :: ds) rest hdig hrest
  simp only [jsParseInt, data_mk, List.cons_append,
    List.dropWhile_cons_of_neg hw, jsSignSplit, if_neg hdash, if_neg hplus]
  rw [← List.cons_append, htake]
  simp

/-- C9: every 200 response of the order listing endpoint carries a
non-empty array, every 200 response of the order detail endpoint carries a
non-empty Details array, and an empty result set on either endpoint
produces a 404 status instead. -/
theorem c9_200_nonempty (st1 st2 : StoreIface) (p : String) (b1 b2 : Json)
    (s t : Store) (q : String) (m : Int)
    (h1 : orderHeadersHandler st1 = (200, b1))
    (h2 : orderDetailsHandler st2 p = (200, b2))
    (hd : distinctVals (s.labels.map (·.OrderNr)) = [])
    (hq : jsParseInt q = some m)
    (ht : t.labels.filter (fun l => decide (l.OrderNr = m)) = []) :
    (∃ xs : List Json, b1 = .arr xs ∧ xs ≠ []) ∧
    (∃ es : List Json, lookupField b2 "Details" = some (.arr es) ∧ es ≠ []) ∧
    (orderHeadersOn s).1 = 404 ∧
    (orderDetailsOn t q).1 = 404 := by
  refine ⟨?_, ?_, ?_, ?_⟩
  · cases hA : st1.distinctOrderNrs with
    | error e => simp [orderHeadersHandler, hA] at h1
    | ok valid =>
      by_cases hv : valid.isEmpty
      · simp [orderHeadersHandler, hA, hv] at h1
      · cases hB : st1.findHeaders valid with
        | error e => simp [orderHeadersHandler, hA, hv, hB] at h1
        | ok orders =>
          by_cases ho : orders.isEmpty
          · simp [orderHeadersHandler, hA, hv, hB, ho] at h1
          · have hbody : Json.arr (orders.map headerToJson) = b1 := by
              have hx := h1
              simp [orderHeadersHandler, hA, hv, hB, ho] at hx
              exact hx
            refine ⟨orders.map headerToJson, hbody.symm, ?_⟩
            intro hnil
            cases orders with
            | nil => exact ho rfl
            | cons a as => simp at hnil
  · cases hP : jsParseInt p with
    | none => simp [orderDetailsHandler, hP] at h2
    | some k =>
      cases hL : st2.findLabelsByOrderNr k with
      | error e => simp [orderDetailsHandler, hP, hL] at h2
      | ok dets =>
        by_cases hde : dets.isEmpty
        · simp [orderDetailsHandler, hP, hL, hde] at h2
        · have hbody : Json.obj [("OrderNr", Json.num k),
              ("PlantDate", firstPlantDate dets),
              ("Details", Json.arr (dets.map (detailEntry k)))] = b2 := by
            have hx := h2
            simp [orderDetailsHandler, hP, hL, hde] at hx
            exact hx
          refine ⟨dets.map (detailEntry k), ?_, ?_⟩
          · rw [← hbody]
            simp [lookupField, findField]
          · intro hnil
            cases dets with
            | nil => exact hde rfl
            | cons a as => simp at hnil
  · rw [orderHeadersOn_eq, hd]
    rfl
  · rw [orderDetailsOn_of_parse_some t q m hq, ht]
    rfl

/-- C9 witness: 200 responses from the sample store, and 404 statuses from
the empty store. -/
theorem c9_200_nonempty_witness :
    (∃ xs : List Json,
        Json.arr [headerToJson sampleHeader] = .arr xs ∧ xs ≠ []) ∧
    (∃ es : List Json,
        lookupField (Json.obj [("OrderNr", Json.num 1),
          ("PlantDate", jsOrNull sampleLabel.PlantDate),
          ("Details", Json.arr [detailEntry 1 sampleLabel])]) "Details" =
          some (.arr es) ∧ es ≠ []) ∧
    (orderHeadersOn emptyStore).1 = 404 ∧
    (orderDetailsOn emptyStore "42").1 = 404 :=
  c9_200_nonempty sampleStore.iface sampleStore.iface "1"
    (Json.arr [headerToJson sampleHeader])
    (Json.obj [("OrderNr", Json.num 1),
      ("PlantDate", jsOrNull sampleLabel.PlantDate),
      ("Details", Json.arr [detailEntry 1 sampleLabel])])
    emptyStore emptyStore "42" 42 rfl rfl rfl rfl rfl

/-- C10: when the path parameter consists of a non-empty block of decimal
digits followed by arbitrary non-digit-leading characters (such as "12abc"
or "3.9"), the detail handler does not answer 400: parseInt yields the
integer denoted by the digit prefix, and the handler either answers 404
naming that integer or 200 echoing it as the OrderNr field. -/
theorem c10_integer_prefix_parsed (s : Store) (ds rest : List Char)
    (d0 : Char) (hds : ds = d0 :: ds.tail)
    (hdig : ∀ c ∈ ds, c.isDigit = true)
    (hrest : ∀ c, rest.head? = some c → c.isDigit = false) :
    (orderDetailsOn s ⟨ds ++ rest⟩).1 ≠ 400 ∧
    jsParseInt ⟨ds ++ rest⟩ = some (digitsToNat ds : Int) ∧
    (orderDetailsOn s ⟨ds ++ rest⟩ =
        (404, errObj ("No valid labels found for OrderNr: " ++
          toString (digitsToNat ds : Int))) ∨
     ∃ body : Json, orderDetailsOn s ⟨ds ++ rest⟩ = (200, body) ∧
        lookupField body "OrderNr" = some (.num (digitsToNat ds : Int))) := by
  have hp : jsParseInt ⟨ds ++ rest⟩ = some (digitsToNat ds : Int) := by
    rw [hds]
    exact jsParseInt_append_digits d0 ds.tail rest (hds ▸ hdig) hrest
  refine ⟨?_, hp, ?_⟩
  · rw [orderDetailsOn_of_parse_some s _ _ hp]
    by_cases he : (s.labels.filter fun l =>
        decide (l.OrderNr = (digitsToNat ds : Int))).isEmpty
    · rw [if_pos he]
      simp
    · rw [if_neg he]
      simp
  · rw [orderDetailsOn_of_parse_some s _ _ hp]
    by_cases he : (s.labels.filter fun l =>
        decide (l.OrderNr = (digitsToNat ds : Int))).isEmpty
    · left
      rw [if_pos he]
    · right
      rw [if_neg he]
      refine ⟨_, rfl, ?_⟩
      simp [lookupField, findField]

/-- C10 witness: the parameter "12abc" on the sample store parses to 12 and
yields a 404 naming 12 (no label has OrderNr 12) rather than a 400. -/
theorem c10_integer_prefix_parsed_witness :
    (orderDetailsOn sampleStore ⟨['1', '2'] ++ ['a', 'b', 'c']⟩).1 ≠ 400 ∧
    jsParseInt ⟨['1', '2'] ++ ['a', 'b', 'c']⟩ =
      some (digitsToNat ['1', '2'] : Int) ∧
    (orderDetailsOn sampleStore ⟨['1', '2'] ++ ['a', 'b', 'c']⟩ =
        (404, errObj ("No valid labels found for OrderNr: " ++
          toString (digitsToNat ['1', '2'] : Int))) ∨
     ∃ body : Json,
        orderDetailsOn sampleStore ⟨['1', '2'] ++ ['a', 'b', 'c']⟩ =
          (200, body) ∧
        lookupField body "OrderNr" =
          some (.num (digitsToNat ['1', '2'] : Int))) :=
  c10_integer_prefix_parsed sampleStore ['1', '2'] ['a', 'b', 'c'] '1' rfl
    (by decide)
    (by
      intro c hc
      simp at hc
      rw [← hc]
      decide)
